import Mathlib

/-!
Verification of the orchestration engine of `build.py` (StrataSource/strata-dependencies).

The Python program is shallowly embedded: the environment composition, the
dependency execution template method, the patch applier, the download/extract
helper, the artifact resolver, the release assembler and the orchestrator main
loop become pure Lean functions over explicit state.  External effects
(subprocess exit codes, filesystem existence, `git apply` semantics) are
parameters of the embedding, and each function additionally returns the trace
of the side-effecting operations it would have performed, so that "X is never
invoked" claims become statements about the trace.
-/

namespace Build

/-! ## Environment composition (`get_global_env`, `Dependency._execute_cmds`) -/

/-- A Python `dict` used as an environment, observed through lookup.
`none` models "key absent". -/
def Env : Type := String → Option String

/-- Semantics of Python `e.update(o)` observed through subsequent lookups:
a key set by the override wins, every other key falls through to `e`.
This is exactly what `dict.update` guarantees for later `e[k]` reads. -/
def dictUpdate (e : Env) (o : Env) : Env :=
  fun k => match o k with
    | some v => some v
    | none => e k

/-- `get_global_env` from `build.py`: builds a fresh dict with the six keys
`CC`, `CXX`, `PKG_CONFIG`, `PATH`, `PKG_CONFIG_PATH`, `HOME`.  The values of
`PATH` and `HOME` read the process environment; they are parameters here. -/
def get_global_env (installDir libDir osPath osHome : String) : Env :=
  fun k =>
    if k = "CC" then some "gcc"
    else if k = "CXX" then some "g++"
    else if k = "PKG_CONFIG" then some "pkg-config --static"
    else if k = "PATH" then some (installDir ++ "/bin:" ++ osPath)
    else if k = "PKG_CONFIG_PATH" then some (libDir ++ "/pkgconfig")
    else if k = "HOME" then some osHome
    else none

/-- One external command: its argument vector. -/
structure Cmd where
  args : List String
deriving DecidableEq, Repr

/-- `Dependency._execute_cmds`: for each command in order, build
`e = get_global_env()`, merge the optional override via `e.update(...)`,
run the command with that environment, and stop at the first non-zero exit.
`run` gives the exit status of each invocation (0 = success).  Returns the
boolean result together with the trace of (command, composed environment)
invocations actually performed. -/
def execute_cmds (base : Env) (override : Option Env)
    (run : Cmd → Env → Nat) : List Cmd → Bool × List (Cmd × Env)
  | [] => (true, [])
  | a :: rest =>
    let e := base
    let e := match override with
      | some o => dictUpdate e o
      | none => e
    if run a e ≠ 0 then (false, [(a, e)])
    else
      let r := execute_cmds base override run rest
      (r.1, (a, e) :: r.2)

/-! ## Patch applier (`Dependency._apply_patch`, `_apply_patches`) -/

/-- Semantics of the external `git apply` invocations used by the patch
applier, over an abstract source-tree state `Tree`:
`reverseCheck t` is the exit success of `git apply --reverse --check <patch>`
in state `t` (a dry run: it never mutates), and `forwardApply t` is
`some t'` when `git apply <patch>` succeeds turning the tree into `t'`,
`none` when it fails (leaving the tree as it was). -/
structure GitPatch (Tree : Type) where
  reverseCheck : Tree → Bool
  forwardApply : Tree → Option Tree

/-- `Dependency._apply_patch`: if the reverse dry-run check succeeds the patch
is already applied and we return success; otherwise run the forward apply.
Returns (result, new tree state, whether the mutating forward apply ran). -/
def apply_patch {Tree : Type} (g : GitPatch Tree) (t : Tree) :
    Bool × Tree × Bool :=
  if g.reverseCheck t then (true, t, false)
  else
    match g.forwardApply t with
    | some t' => (true, t', true)
    | none => (false, t, true)

/-- `Dependency._apply_patches`: apply each patch in order, stopping at the
first failure. -/
def apply_patches {Tree : Type} (t : Tree) :
    List (GitPatch Tree) → Bool × Tree
  | [] => (true, t)
  | g :: gs =>
    let r := apply_patch g t
    if r.1 then apply_patches r.2.1 gs
    else (false, r.2.1)

/-! ## Download provider (`download_and_extract`) -/

/-- The side-effecting operations of `download_and_extract`, in program order. -/
inductive DLEvent where
  /-- `curl -L -o download-1.<type> <url>` -/
  | curl (url : String)
  /-- `os.unlink('download-1.<type>')` -/
  | unlinkTemp
  /-- `os.mkdir(path)` inside the repos work dir (tar-family branch only) -/
  | mkdirPath (path : String)
  /-- `tar --verbose --strip-components=1 -xf ../download-1.<type> -C path` -/
  | tarExtract (path : String)
  /-- `unzip ../download-1.<type> -d path` -/
  | unzipExtract (path : String)
  /-- `assert False`: AssertionError aborts the function -/
  | assertAbort
deriving DecidableEq, Repr

/-- `download_and_extract url type path`, given the exit successes of the two
external tools (`curlOk`, `extractOk`).  Returns `some b` when the function
returns the boolean `b`, `none` when it terminates by the `assert False`
AssertionError (unsupported archive type), together with the ordered trace of
side-effecting operations performed. -/
def download_and_extract (url ty path : String)
    (curlOk extractOk : Bool) : Option Bool × List DLEvent :=
  if ¬ curlOk then (some false, [.curl url, .unlinkTemp])
  else if ty = "tar.gz" ∨ ty = "tar" ∨ ty = "tar.bz2" ∨ ty = "tgz" then
    (some extractOk, [.curl url, .mkdirPath path, .tarExtract path, .unlinkTemp])
  else if ty = "zip" then
    (some extractOk, [.curl url, .unzipExtract path, .unlinkTemp])
  else
    (none, [.curl url, .assertAbort])

/-- How many leading path components the extraction command of an event
discards, per the documented behaviour of the external tools:
`tar --strip-components=1` discards exactly one, `unzip -d` discards none
(it recreates the archive paths verbatim under the target directory). -/
def strippedComponents : DLEvent → Option Nat
  | .tarExtract _ => some 1
  | .unzipExtract _ => some 0
  | _ => none

/-! ## Scoped working directory (`WorkDir`) -/

/-- Process state visible to `WorkDir`: the process-wide current working
directory, plus arbitrary other state `α` the enclosed body may mutate. -/
structure PState (α : Type) where
  cwd : String
  data : α

/-- The outcome of running a Python block: the final process state and
`some e` when the block raised exception `e`, `none` when it completed. -/
def Outcome (ε α : Type) : Type := PState α × Option ε

/-- `with WorkDir(dir): body` — `__enter__` saves `os.getcwd()` and
`os.chdir(dir)`; the body runs (possibly raising); `__exit__` runs on every
exit path, `os.chdir(saved)`, and returns `None` so an exception propagates. -/
def withWorkDir {ε α : Type} (dir : String)
    (body : PState α → Outcome ε α) (s : PState α) : Outcome ε α :=
  let saved := s.cwd
  let r := body { s with cwd := dir }
  ({ r.1 with cwd := saved }, r.2)

/-! ## Dependency descriptor (`Dependency.execute`) -/

/-- The build stages of a dependency, as reported on failure. -/
inductive Stage where
  | download
  | patch
  | configure
  | build
deriving DecidableEq, Repr

/-- The behaviour of one dependency descriptor, abstracting the
subclass-provided steps by their success values: `dirExists` is
`os.path.exists` of `repos/<get_directory()>`, and the four booleans are the
results the overridden `download`/`apply_patches`/`configure`/`build` methods
would return if invoked.  (The base class's `download` returns `False`:
a descriptor with no provider has `downloadOk = false`.)
`artifacts` and `headers` are the descriptor's declared outputs. -/
structure DepSpec where
  dirExists : Bool
  downloadOk : Bool
  patchesOk : Bool
  configureOk : Bool
  buildOk : Bool
  artifacts : List String
  headers : List String
deriving DecidableEq, Repr

/-- The observable result of `Dependency.execute`: return value, which stages
were invoked (in order), and the failure messages printed. -/
structure ExecResult where
  ok : Bool
  stagesRun : List Stage
  output : List String
deriving DecidableEq, Repr

/-- `Dependency.execute`: if the source directory is absent, invoke
`download()` and return `False` on failure; otherwise/then, inside
`WorkDir(dir)`, run `apply_patches()`, `configure()`, `build()`, each gating
the next, printing the failing stage's message and returning `False` on the
first failure. -/
def Dependency.execute (d : DepSpec) : ExecResult :=
  let pre : List Stage := if d.dirExists then [] else [.download]
  if ¬ d.dirExists ∧ ¬ d.downloadOk then
    ⟨false, pre, ["Download failed!"]⟩
  else if ¬ d.patchesOk then
    ⟨false, pre ++ [.patch], ["Failed to apply patches"]⟩
  else if ¬ d.configureOk then
    ⟨false, pre ++ [.patch, .configure], ["Configure failed!"]⟩
  else if ¬ d.buildOk then
    ⟨false, pre ++ [.patch, .configure, .build], ["Build failed!"]⟩
  else
    ⟨true, pre ++ [.patch, .configure, .build], []⟩

/-! ## Artifact resolver (`get_soname`, `install_lib`) -/

/-- Outcome of inspecting a built binary with `readelf -d` and searching its
output for `soname: [...]`: `fail` is a non-zero `readelf` exit,
`ok m` is a successful run whose output matched the regex with group `m`
(`ok none` when the regex found no match, making `matches.group(1)` raise). -/
inductive ReadelfResult where
  | fail
  | ok (sonameMatch : Option String)
deriving DecidableEq, Repr

/-- `get_soname`: `None` when `readelf` exits non-zero; otherwise the regex
group when it matched, and `None` when the `try` body raised (no match). -/
def get_soname (r : ReadelfResult) : Option String :=
  match r with
  | .fail => none
  | .ok m => m

/-- A filesystem effect of the release assembler. -/
inductive RelEvent where
  /-- `mkdir_p(p)` for a staging zone -/
  | mkdirZone (p : String)
  /-- `shutil.copy(src, dst)` -/
  | copy (src dst : String)
  /-- `shutil.copytree(src, dst, dirs_exist_ok=True)` -/
  | copytree (src dst : String)
deriving DecidableEq, Repr

/-- Python `str.endswith(suffix)`: the suffix test on the character lists. -/
def pyEndsWith (s suf : String) : Bool :=
  suf.toList.isSuffixOf s.toList

/-- `install_lib lib`: resolve the SONAME (falling back to the declared name
when `get_soname` returns `None`); unless the declared name ends in `.a`,
copy the resolved file into `release/bin/linux64`; always copy the declared
file into `release/lib/external/linux64`.  `inspect` gives the
`readelf` outcome for each library name. -/
def install_lib (inspect : String → ReadelfResult) (libDir : String)
    (lib : String) : List RelEvent :=
  let soname := match get_soname (inspect lib) with
    | none => lib
    | some s => s
  (if ¬ pyEndsWith lib ".a" then
    [.copy (libDir ++ "/" ++ soname) ("release/bin/linux64/" ++ soname)]
  else []) ++
  [.copy (libDir ++ "/" ++ lib) ("release/lib/external/linux64/" ++ lib)]

/-- `install_headers dir dst`: `shutil.copytree` of the include subtree,
merging with pre-existing content. -/
def install_headers (incDir : String) (dir dst : String) : RelEvent :=
  .copytree (incDir ++ "/" ++ dir) (dst ++ "/" ++ dir)

/-- `create_release(deps)`: make the three staging zones, then for every
descriptor in the registry (the full dict, in insertion order) install its
declared artifacts and headers.  The final strip/chrpath pass and the
tarball creation act on the staging tree as a whole, independently of the
registry, and are not part of the per-dependency event trace modelled here. -/
def create_release (inspect : String → ReadelfResult) (libDir incDir : String)
    (deps : List (String × DepSpec)) : List RelEvent :=
  [.mkdirZone "release/bin/linux64",
   .mkdirZone "release/lib/external/linux64",
   .mkdirZone "release/include"] ++
  deps.flatMap (fun d =>
    d.2.artifacts.flatMap (install_lib inspect libDir) ++
    d.2.headers.map (fun h => install_headers incDir h "release/include"))

/-! ## Orchestrator (`main`) -/

/-- The observable outcome of `main` past argument parsing: the exit status,
the names whose `execute()` was invoked (in order), everything printed, and
the release-assembly effects. -/
structure RunResult where
  exitCode : Nat
  executed : List String
  output : List String
  releaseEvents : List RelEvent
deriving DecidableEq, Repr

/-- The dependency-building loop of `main`: iterate the registry in insertion
order; skip an entry when `--only` was given and does not list it; otherwise
print `Building <dep>` and call `execute()`; on failure print
`Build failed for <dep>` and `exit(1)`.  Returns (all succeeded, executed
names, output). -/
def buildLoop (only : Option (List String)) :
    List (String × DepSpec) → Bool × List String × List String
  | [] => (true, [], [])
  | (name, d) :: rest =>
    if (match only with
        | some l => decide (name ∉ l)
        | none => false) then
      buildLoop only rest
    else
      let r := Dependency.execute d
      if ¬ r.ok then
        (false, [name],
         ("Building " ++ name) :: r.output ++ ["Build failed for " ++ name])
      else
        let k := buildLoop only rest
        (k.1, name :: k.2.1, ("Building " ++ name) :: r.output ++ k.2.2)

/-- `main` after argument parsing, on the non-`--clean`, non-`--only-release`
path: run the build loop; on the first failure exit with status 1; otherwise
print the success line and, unless `--skip-release`, run `create_release`
over the full registry; then exit 0. -/
def mainRun (only : Option (List String)) (skipRelease : Bool)
    (inspect : String → ReadelfResult) (libDir incDir : String)
    (deps : List (String × DepSpec)) : RunResult :=
  let l := buildLoop only deps
  if ¬ l.1 then ⟨1, l.2.1, l.2.2, []⟩
  else
    let out := l.2.2 ++ ["Finished building all dependencies"]
    if skipRelease then ⟨0, l.2.1, out, []⟩
    else ⟨0, l.2.1, out, create_release inspect libDir incDir deps⟩

/-! ## `mkdir_p` -/

/-- Python `str.split(sep)` for a one-character separator, over the character
list of the string: every occurrence of `sep` ends a segment, and the empty
string splits to `[""]`. -/
def pySplit (sep : Char) : List Char → List (List Char)
  | [] => [[]]
  | c :: cs =>
    if c = sep then [] :: pySplit sep cs
    else
      match pySplit sep cs with
      | [] => [[c]]
      | h :: t => (c :: h) :: t

/-- `mkdir_p(path)`: split on `/`; return `False` when the split has length
`≤ 0`; otherwise walk the components, creating each missing prefix directory
(`ex` is `os.path.exists` at query time), and return `True`.  Also returns
the list of `os.mkdir` calls made. -/
def mkdir_p (ex : String → Bool) (path : String) : Bool × List String :=
  let comps := (pySplit '/' path.toList).map (fun l => String.mk l)
  match comps with
  | [] => (false, [])
  | c0 :: rest =>
    let fin := rest.foldl
      (fun (acc : String × List String) (c : String) =>
        (acc.1 ++ "/" ++ c, if ex acc.1 then acc.2 else acc.2 ++ [acc.1]))
      (c0, [])
    (true, if ex fin.1 then fin.2 else fin.2 ++ [fin.1])

/-! ## Helper lemmas -/

/-- Every environment actually passed to a command by `_execute_cmds` is the
fresh merge of the global base with the override. -/
theorem mem_execute_cmds_env (base o : Env) (run : Cmd → Env → Nat) :
    ∀ (cmds : List Cmd) (c : Cmd) (e : Env),
      (c, e) ∈ (execute_cmds base (some o) run cmds).2 → e = dictUpdate base o := by
  intro cmds
  induction cmds with
  | nil => intro c e h; simp [execute_cmds] at h
  | cons a rest ih =>
    intro c e h
    simp only [execute_cmds] at h
    split at h
    · simp at h
      exact h.2
    · rcases List.mem_cons.mp h with h1 | h2
      · exact (Prod.ext_iff.mp h1).2
      · exact ih c e h2

theorem pySplit_ne_nil (sep : Char) (l : List Char) : pySplit sep l ≠ [] := by
  induction l with
  | nil => simp [pySplit]
  | cons c cs ih =>
    simp only [pySplit]
    split
    · simp
    · split
      · simp
      · simp

/-! ## Claim theorems -/

/-- C2: for every base environment, override mapping and key `K`, every
command invocation in a batch run by `_execute_cmds` uses the environment
recomputed fresh as `dictUpdate base override`; on a key present in both,
the override value wins, and a base key absent from the override keeps its
base value unchanged. -/
theorem execute_cmds_env_merge (base o : Env) (run : Cmd → Env → Nat)
    (cmds : List Cmd) (c : Cmd) (e : Env) (K v : String)
    (hmem : (c, e) ∈ (execute_cmds base (some o) run cmds).2) :
    e = dictUpdate base o ∧
    (o K = some v → base K ≠ none → e K = some v) ∧
    (o K = none → e K = base K) := by
  have he := mem_execute_cmds_env base o run cmds c e hmem
  subst he
  refine ⟨rfl, ?_, ?_⟩
  · intro hov _
    simp [dictUpdate, hov]
  · intro hnone
    simp [dictUpdate, hnone]

def baseW : Env := get_global_env "/top/install" "/top/install/lib" "/usr/bin" "/home/u"

def ovrW : Env := fun k => if k = "PATH" then some "/override/bin" else none

def cmdW : Cmd := ⟨["make", "install"]⟩

theorem execute_cmds_env_merge_witness :
    dictUpdate baseW ovrW = dictUpdate baseW ovrW ∧
    (ovrW "PATH" = some "/override/bin" → baseW "PATH" ≠ none →
      dictUpdate baseW ovrW "PATH" = some "/override/bin") ∧
    (ovrW "PATH" = none → dictUpdate baseW ovrW "PATH" = baseW "PATH") :=
  execute_cmds_env_merge baseW ovrW (fun _ _ => 0) [cmdW] cmdW
    (dictUpdate baseW ovrW) "PATH" "/override/bin"
    (by simp [execute_cmds])

/-- C9: entering a `WorkDir` scope restores the previous working directory on
every exit path — the final state's `cwd` equals the prior `cwd` whether or
not the body raised, the body's exception (if any) propagates unchanged, and
the property holds under nesting: after nested scope entries and exits the
working directory equals what it was before the outermost entry. -/
theorem withWorkDir_restores_cwd {ε α : Type} (dir : String)
    (body : PState α → Outcome ε α) (s : PState α) :
    (withWorkDir dir body s).1.cwd = s.cwd ∧
    (withWorkDir dir body s).2 = (body { s with cwd := dir }).2 ∧
    (∀ (d2 : String) (body2 : PState α → Outcome ε α),
      (withWorkDir dir (fun t => withWorkDir d2 body2 t) s).1.cwd = s.cwd) := by
  refine ⟨rfl, rfl, fun d2 body2 => rfl⟩

/-- C10: `mkdir_p` returns `True` for every input string and every state of
the filesystem: Python `split('/')` always yields at least one component
(even for the empty string), so the `False` branch is unreachable. -/
theorem mkdir_p_returns_true (ex : String → Bool) (path : String) :
    1 ≤ (pySplit '/' path.toList).length ∧ (mkdir_p ex path).1 = true := by
  constructor
  · exact Nat.one_le_iff_ne_zero.mpr
      (fun h => pySplit_ne_nil '/' path.toList (List.length_eq_zero.mp h))
  · unfold mkdir_p
    cases h : (pySplit '/' path.toList).map (fun l => String.mk l) with
    | nil =>
      exact absurd (List.map_eq_nil_iff.mp h) (pySplit_ne_nil '/' path.toList)
    | cons c0 rest => simp

/-- C3: the patch applier is idempotent.  When the reverse dry-run check
succeeds, `_apply_patch` returns success without running the mutating
forward apply and leaves the tree unchanged; the forward apply runs only
when the reverse check fails; and — given that a successful forward apply
leaves the tree in a state where the reverse check succeeds (the semantics
of `git apply`) — applying an already-successfully-applied patch a second
time succeeds and leaves the tree state exactly as after the first
application. -/
theorem apply_patch_idempotent {Tree : Type} (g : GitPatch Tree) (t : Tree)
    (hgit : ∀ u u', g.forwardApply u = some u' → g.reverseCheck u' = true) :
    (g.reverseCheck t = true → apply_patch g t = (true, t, false)) ∧
    ((apply_patch g t).2.2 = true → g.reverseCheck t = false) ∧
    ((apply_patch g t).1 = true →
      apply_patch g (apply_patch g t).2.1 = (true, (apply_patch g t).2.1, false)) := by
  refine ⟨?_, ?_, ?_⟩
  · intro hrev
    simp [apply_patch, hrev]
  · intro hran
    by_contra hne
    have hrev : g.reverseCheck t = true := by
      cases h : g.reverseCheck t
      · exact absurd h hne
      · rfl
    simp [apply_patch, hrev] at hran
  · intro hok
    by_cases hrev : g.reverseCheck t = true
    · simp [apply_patch, hrev]
    · have hrev' : g.reverseCheck t = false := by
        cases h : g.reverseCheck t
        · rfl
        · exact absurd h hrev
      cases hfwd : g.forwardApply t with
      | none => simp [apply_patch, hrev', hfwd] at hok
      | some t' =>
        have h2 : g.reverseCheck t' = true := hgit t t' hfwd
        simp [apply_patch, hrev', hfwd, h2]

/-- A two-state tree model of one patch: `false` = clean, `true` = patched;
the reverse check succeeds exactly on the patched state, and the forward
apply succeeds exactly on the clean state. -/
def gW : GitPatch Bool :=
  { reverseCheck := fun t => t
    forwardApply := fun t => if t then none else some true }

theorem apply_patch_idempotent_witness :
    (gW.reverseCheck true = true → apply_patch gW true = (true, true, false)) ∧
    ((apply_patch gW true).2.2 = true → gW.reverseCheck true = false) ∧
    ((apply_patch gW true).1 = true →
      apply_patch gW (apply_patch gW true).2.1 =
        (true, (apply_patch gW true).2.1, false)) :=
  apply_patch_idempotent gW true (by decide)

/-- C7: `execute()` invokes `download()` exactly when the source directory is
absent, and fails the whole operation when that download fails (no later
stage runs); when the directory exists or the download succeeds, the stages
run are patches, then configure, then build, each gated on its predecessor's
success, and the overall result is the conjunction of the three stage
results. -/
theorem execute_contract (d : DepSpec) :
    (Stage.download ∈ (Dependency.execute d).stagesRun ↔ d.dirExists = false) ∧
    (d.dirExists = false → d.downloadOk = false →
      Dependency.execute d = ⟨false, [.download], ["Download failed!"]⟩) ∧
    (d.dirExists = true ∨ d.downloadOk = true →
      (Dependency.execute d).stagesRun =
        (if d.dirExists then [] else [.download]) ++ [.patch] ++
        (if d.patchesOk then
          [.configure] ++ (if d.configureOk then [.build] else [])
        else []) ∧
      (Dependency.execute d).ok = (d.patchesOk && d.configureOk && d.buildOk)) := by
  obtain ⟨de, dl, pa, co, bu, ar, he⟩ := d
  cases de <;> cases dl <;> cases pa <;> cases co <;> cases bu <;>
    simp [Dependency.execute]

/-- A descriptor whose source is absent with no working download provider. -/
def depNoDl : DepSpec :=
  ⟨false, false, true, true, true, [], []⟩

/-- A descriptor with its source present and all stages succeeding. -/
def depAllOk : DepSpec :=
  ⟨true, false, true, true, true, [], []⟩

theorem execute_contract_witness :
    Dependency.execute depNoDl = ⟨false, [.download], ["Download failed!"]⟩ ∧
    ((Dependency.execute depAllOk).stagesRun =
        [.patch, .configure, .build] ∧
      (Dependency.execute depAllOk).ok = true) := by
  refine ⟨(execute_contract depNoDl).2.1 rfl rfl, ?_⟩
  have h := (execute_contract depAllOk).2.2 (Or.inl rfl)
  exact ⟨by simpa using h.1, by simpa using h.2⟩

/-- The message `execute()` prints when the given stage fails. -/
def stageMessage : Stage → String
  | .download => "Download failed!"
  | .patch => "Failed to apply patches"
  | .configure => "Configure failed!"
  | .build => "Build failed!"

/-- The first stage of a descriptor that would fail under `execute()`'s
gating, if any. -/
def failedStage (d : DepSpec) : Option Stage :=
  if ¬ d.dirExists ∧ ¬ d.downloadOk then some .download
  else if ¬ d.patchesOk then some .patch
  else if ¬ d.configureOk then some .configure
  else if ¬ d.buildOk then some .build
  else none

/-- A failing `execute()` prints exactly the message of its failing stage. -/
theorem execute_fail_stage (d : DepSpec)
    (h : (Dependency.execute d).ok = false) :
    ∃ s : Stage, failedStage d = some s ∧
      (Dependency.execute d).output = [stageMessage s] := by
  obtain ⟨de, dl, pa, co, bu, ar, he⟩ := d
  cases de <;> cases dl <;> cases pa <;> cases co <;> cases bu <;>
    simp [Dependency.execute] at h ⊢ <;>
    simp [failedStage, stageMessage]

/-- C1: with registry order `[A, B, C]` and no subset restriction, if `A`
succeeds and `B`'s `execute()` fails, then `C`'s `execute()` is never
invoked, the process exits with the non-zero status 1, and the output names
`B` as the failing dependency and carries the message naming the stage of
`B` that failed. -/
theorem orchestrator_fail_fast (A B C : String × DepSpec)
    (inspect : String → ReadelfResult) (libDir incDir : String)
    (hA : (Dependency.execute A.2).ok = true)
    (hB : (Dependency.execute B.2).ok = false)
    (hCA : C.1 ≠ A.1) (hCB : C.1 ≠ B.1) :
    (mainRun none false inspect libDir incDir [A, B, C]).exitCode ≠ 0 ∧
    (mainRun none false inspect libDir incDir [A, B, C]).executed = [A.1, B.1] ∧
    C.1 ∉ (mainRun none false inspect libDir incDir [A, B, C]).executed ∧
    ("Build failed for " ++ B.1) ∈
      (mainRun none false inspect libDir incDir [A, B, C]).output ∧
    ∃ s : Stage, failedStage B.2 = some s ∧
      stageMessage s ∈ (mainRun none false inspect libDir incDir [A, B, C]).output := by
  obtain ⟨s, hs, hout⟩ := execute_fail_stage B.2 hB
  have hloop : buildLoop none [A, B, C] =
      (false, [A.1, B.1],
        ("Building " ++ A.1) :: (Dependency.execute A.2).output ++
          (("Building " ++ B.1) :: (Dependency.execute B.2).output ++
            ["Build failed for " ++ B.1])) := by
    simp [buildLoop, hA, hB]
  have hrun : mainRun none false inspect libDir incDir [A, B, C] =
      ⟨1, [A.1, B.1],
        ("Building " ++ A.1) :: (Dependency.execute A.2).output ++
          (("Building " ++ B.1) :: (Dependency.execute B.2).output ++
            ["Build failed for " ++ B.1]), []⟩ := by
    simp [mainRun, hloop]
  rw [hrun]
  refine ⟨by simp, rfl, ?_, ?_, s, hs, ?_⟩
  · simp [hCA, hCB]
  · simp
  · rw [hout]
    simp

def depA : String × DepSpec := ("pcre", depAllOk)

def depB : String × DepSpec := ("zlib", ⟨true, false, true, true, false, [], []⟩)

def depC : String × DepSpec := ("curl", depAllOk)

theorem orchestrator_fail_fast_witness :
    (mainRun none false (fun _ => .fail) "lib" "inc" [depA, depB, depC]).exitCode ≠ 0 ∧
    (mainRun none false (fun _ => .fail) "lib" "inc" [depA, depB, depC]).executed =
      [depA.1, depB.1] ∧
    depC.1 ∉ (mainRun none false (fun _ => .fail) "lib" "inc" [depA, depB, depC]).executed ∧
    ("Build failed for " ++ depB.1) ∈
      (mainRun none false (fun _ => .fail) "lib" "inc" [depA, depB, depC]).output ∧
    ∃ s : Stage, failedStage depB.2 = some s ∧
      stageMessage s ∈
        (mainRun none false (fun _ => .fail) "lib" "inc" [depA, depB, depC]).output :=
  orchestrator_fail_fast depA depB depC (fun _ => .fail) "lib" "inc"
    (by decide) (by decide) (by decide) (by decide)

/-- C4 counterexample: the claim that every supported archive kind discards
exactly one leading path component is false for `zip` — the extraction
command the code issues for a zip archive (`unzip ... -d path`, with no
strip option) discards zero components, so a zip wrapping its contents in a
root folder does not land flush in the target directory. -/
theorem zip_does_not_strip_counterexample :
    ¬ ∀ e ∈ (download_and_extract "http://u" "zip" "p" true true).2,
        strippedComponents e = none ∨ strippedComponents e = some 1 := by
  intro h
  have hmem : DLEvent.unzipExtract "p" ∈
      (download_and_extract "http://u" "zip" "p" true true).2 := by
    simp [download_and_extract]
  have := h _ hmem
  simp [strippedComponents] at this

/-- C4 (amended): extraction of every tar-family kind (`tar.gz`, `tar`,
`tar.bz2`, `tgz`) discards exactly one leading path component
(`--strip-components=1`); a `zip` archive instead is extracted with
`unzip -d`, which discards none, so only tar-family archives wrapped in a
single root folder land flush in the target directory. -/
theorem download_and_extract_strip (url path : String) (exOk : Bool)
    (ty : String)
    (hty : ty = "tar.gz" ∨ ty = "tar" ∨ ty = "tar.bz2" ∨ ty = "tgz") :
    (download_and_extract url ty path true exOk).2 =
      [.curl url, .mkdirPath path, .tarExtract path, .unlinkTemp] ∧
    strippedComponents (DLEvent.tarExtract path) = some 1 ∧
    (download_and_extract url "zip" path true exOk).2 =
      [.curl url, .unzipExtract path, .unlinkTemp] ∧
    strippedComponents (DLEvent.unzipExtract path) = some 0 := by
  refine ⟨?_, rfl, ?_, rfl⟩
  · rcases hty with h | h | h | h <;> subst h <;> simp [download_and_extract]
  · simp [download_and_extract]

theorem download_and_extract_strip_witness :
    (download_and_extract "http://u" "tar.gz" "mp3lame" true true).2 =
      [.curl "http://u", .mkdirPath "mp3lame", .tarExtract "mp3lame", .unlinkTemp] ∧
    strippedComponents (DLEvent.tarExtract "mp3lame") = some 1 ∧
    (download_and_extract "http://u" "zip" "mp3lame" true true).2 =
      [.curl "http://u", .unzipExtract "mp3lame", .unlinkTemp] ∧
    strippedComponents (DLEvent.unzipExtract "mp3lame") = some 0 :=
  download_and_extract_strip "http://u" "mp3lame" true "tar.gz" (Or.inl rfl)

/-- C8 counterexample: for an unsupported archive kind the claim fails — the
`assert False` aborts `download_and_extract` before the `os.unlink`, so the
temporary download file is not removed. -/
theorem unlink_skipped_on_assert_counterexample :
    (download_and_extract "http://u" "rar" "p" true true).1 = none ∧
    DLEvent.unlinkTemp ∉ (download_and_extract "http://u" "rar" "p" true true).2 := by
  constructor
  · simp [download_and_extract]
  · simp [download_and_extract]

/-- C8 (amended): the temporary download file is removed exactly when
`download_and_extract` returns (fetch failure, or extraction over any
supported kind, succeeding or not); when the archive kind is unsupported the
assertion terminates the function before the unlink, leaving the temporary
file behind. -/
theorem download_and_extract_unlink (url ty path : String)
    (curlOk exOk : Bool) :
    (download_and_extract url ty path curlOk exOk).1 ≠ none ↔
      DLEvent.unlinkTemp ∈ (download_and_extract url ty path curlOk exOk).2 := by
  unfold download_and_extract
  split
  · simp
  · split
    · simp
    · split
      · simp
      · simp

/-- C5: artifact resolution.  `get_soname` yields nothing on a failed
`readelf` or a failed regex match; a dynamic artifact whose binary declares
a SONAME is copied into the runtime binaries zone under that SONAME; when
inspection yields nothing the declared name is used unchanged, with no
error; and a `.a` artifact is installed into the library zone under its
declared name verbatim, with no copy into the runtime binaries zone. -/
theorem install_lib_resolution (inspect : String → ReadelfResult)
    (libDir lib : String) :
    get_soname .fail = none ∧ get_soname (.ok none) = none ∧
    (∀ s, get_soname (inspect lib) = some s → pyEndsWith lib ".a" = false →
      install_lib inspect libDir lib =
        [.copy (libDir ++ "/" ++ s) ("release/bin/linux64/" ++ s),
         .copy (libDir ++ "/" ++ lib) ("release/lib/external/linux64/" ++ lib)]) ∧
    (get_soname (inspect lib) = none → pyEndsWith lib ".a" = false →
      install_lib inspect libDir lib =
        [.copy (libDir ++ "/" ++ lib) ("release/bin/linux64/" ++ lib),
         .copy (libDir ++ "/" ++ lib) ("release/lib/external/linux64/" ++ lib)]) ∧
    (pyEndsWith lib ".a" = true →
      install_lib inspect libDir lib =
        [.copy (libDir ++ "/" ++ lib) ("release/lib/external/linux64/" ++ lib)]) := by
  refine ⟨rfl, rfl, ?_, ?_, ?_⟩
  · intro s hs ha
    simp [install_lib, hs, ha]
  · intro hs ha
    simp [install_lib, hs, ha]
  · intro ha
    cases h : get_soname (inspect lib) with
    | none => simp [install_lib, h, ha]
    | some s => simp [install_lib, h, ha]

/-- `readelf` outcomes for the witness: `libcairo.so` carries a SONAME,
everything else fails inspection. -/
def inspectW : String → ReadelfResult :=
  fun l => if l = "libcairo.so" then .ok (some "libcairo.so.2") else .fail

theorem install_lib_resolution_witness :
    install_lib inspectW "lib" "libcairo.so" =
      [.copy "lib/libcairo.so.2" "release/bin/linux64/libcairo.so.2",
       .copy "lib/libcairo.so" "release/lib/external/linux64/libcairo.so"] ∧
    install_lib inspectW "lib" "libogg.so" =
      [.copy "lib/libogg.so" "release/bin/linux64/libogg.so",
       .copy "lib/libogg.so" "release/lib/external/linux64/libogg.so"] ∧
    install_lib inspectW "lib" "libmp3lame.a" =
      [.copy "lib/libmp3lame.a" "release/lib/external/linux64/libmp3lame.a"] := by
  refine ⟨?_, ?_, ?_⟩
  · have h := (install_lib_resolution inspectW "lib" "libcairo.so").2.2.1
      "libcairo.so.2" (by decide) (by decide)
    simpa using h
  · have h := (install_lib_resolution inspectW "lib" "libogg.so").2.2.2.1
      (by decide) (by decide)
    simpa using h
  · have h := (install_lib_resolution inspectW "lib" "libmp3lame.a").2.2.2.2
      (by decide)
    simpa using h

/-- Along the build loop, every executed name passed the `--only` filter. -/
theorem buildLoop_executed_subset (only : List String) :
    ∀ (deps : List (String × DepSpec)) (n : String),
      n ∈ (buildLoop (some only) deps).2.1 → n ∈ only := by
  intro deps
  induction deps with
  | nil => intro n h; simp [buildLoop] at h
  | cons hd rest ih =>
    obtain ⟨name, d⟩ := hd
    intro n h
    rw [buildLoop] at h
    split at h
    · exact ih n h
    · rename_i hcond
      have hm : name ∈ only := by
        by_contra hnm
        exact hcond (by simpa using hnm)
      dsimp only at h
      split at h
      · simp at h
        exact h ▸ hm
      · rcases List.mem_cons.mp h with h1 | h2
        · exact h1 ▸ hm
        · exact ih n h2

/-- C6 counterexample: with registry `[pcre2, zlib]` and selection
`["pcre2"]` (release assembly not skipped), only `pcre2` executes — yet the
run still copies `zlib`'s declared artifact into the release tree, a
filesystem side effect on behalf of the unselected dependency. -/
def depSel : String × DepSpec := ("pcre2", depAllOk)

def depUnsel : String × DepSpec :=
  ("zlib", ⟨true, false, true, true, true, ["libz.so"], []⟩)

theorem selective_build_counterexample :
    (mainRun (some ["pcre2"]) false (fun _ => .fail) "lib" "inc"
        [depSel, depUnsel]).executed = ["pcre2"] ∧
    RelEvent.copy "lib/libz.so" "release/lib/external/linux64/libz.so" ∈
      (mainRun (some ["pcre2"]) false (fun _ => .fail) "lib" "inc"
        [depSel, depUnsel]).releaseEvents := by
  constructor
  · rfl
  · simp [mainRun, buildLoop, depSel, depUnsel, depAllOk, Dependency.execute,
      create_release, install_lib, get_soname, install_headers]

/-- C6 (amended): only dependencies in the `--only` selection execute any
build step; with `--skip-release` the run performs no release-assembly
effects at all, but without it a successful build loop runs
`create_release` over the full registry, so unselected dependencies'
declared artifacts and headers are still copied into the release tree. -/
theorem mainRun_selective (only : List String)
    (inspect : String → ReadelfResult) (libDir incDir : String)
    (deps : List (String × DepSpec)) :
    (∀ n ∈ (mainRun (some only) false inspect libDir incDir deps).executed,
      n ∈ only) ∧
    (mainRun (some only) true inspect libDir incDir deps).releaseEvents = [] ∧
    ((buildLoop (some only) deps).1 = true →
      (mainRun (some only) false inspect libDir incDir deps).releaseEvents =
        create_release inspect libDir incDir deps) := by
  refine ⟨?_, ?_, ?_⟩
  · intro n hn
    apply buildLoop_executed_subset only deps n
    have he : (mainRun (some only) false inspect libDir incDir deps).executed =
        (buildLoop (some only) deps).2.1 := by
      cases hb : (buildLoop (some only) deps).1 <;> simp [mainRun, hb]
    rwa [he] at hn
  · cases hb : (buildLoop (some only) deps).1 <;> simp [mainRun, hb]
  · intro hl
    simp [mainRun, hl]

theorem mainRun_selective_witness :
    (mainRun (some ["pcre2"]) true (fun _ => .fail) "lib" "inc"
        [depSel, depUnsel]).releaseEvents = [] ∧
    (mainRun (some ["pcre2"]) false (fun _ => .fail) "lib" "inc"
        [depSel, depUnsel]).releaseEvents =
      create_release (fun _ => .fail) "lib" "inc" [depSel, depUnsel] := by
  refine ⟨(mainRun_selective ["pcre2"] (fun _ => .fail) "lib" "inc"
      [depSel, depUnsel]).2.1,
    (mainRun_selective ["pcre2"] (fun _ => .fail) "lib" "inc"
      [depSel, depUnsel]).2.2 ?_⟩
  decide

end Build
